import Mathlib

/-
Shallow embedding of src/main3.py (OptimizedServerMonitor): the sampling
cache, network rate estimator, usage classifier, animation scheduler,
page cursor, gif loading, and top-process selection.  Times are rationals
(seconds), byte counters are integers, percentages and rates rationals.
The external collaborators (psutil, vcgencmd, the filesystem) are modelled
as a time-indexed `Env` of readings and a per-level `FileStatus`; pixel
drawing on the Display Sink is outside the model.
-/

namespace ServerMonitor

/-- The usage level strings "low" / "medium" / "high". -/
inductive Level where
  | low
  | medium
  | high
deriving DecidableEq

/-- One entry of stats["top_processes"]: the dict with name and cpu_percent. -/
structure ProcInfo where
  name : String
  cpu_percent : ℚ
deriving DecidableEq

/-- One yield of psutil.process_iter: either the proc.info dict, whose
cpu_percent may be None, or a NoSuchProcess / AccessDenied error. -/
inductive ProcEntry where
  | ok (name : String) (cpu : Option ℚ)
  | err
deriving DecidableEq

/-- One point-in-time reading of every external metric the monitor samples.
Option encodes the calls wrapped in try/except (vcgencmd, os.getloadavg,
psutil.process_iter): none means the call raised. -/
structure Reading where
  cpu_percent : ℚ
  memory_percent : ℚ
  memory_used : ℚ
  memory_total : ℚ
  disk_total : ℚ
  disk_used : ℚ
  disk_free : ℚ
  temp : Option ℚ
  load_avg : Option ℚ
  pids : ℕ
  proc_table : Option (List ProcEntry)
  net_sent : ℤ
  net_recv : ℤ

/-- The Metrics Source collaborator: what each psutil / OS call would
return if made at a given time. -/
abbrev Env : Type := ℚ → Reading

/-- The stats dict assembled by get_system_stats. -/
structure Stats where
  cpu_percent : ℚ
  memory_percent : ℚ
  memory_used_gb : ℚ
  memory_total_gb : ℚ
  disk_percent : ℚ
  disk_free_gb : ℚ
  disk_total_gb : ℚ
  cpu_temp : ℚ
  net_up_speed : ℚ
  net_down_speed : ℚ
  load_avg : ℚ
  process_count : ℕ
  top_processes : List ProcInfo
deriving DecidableEq

/-- The mutable attributes of OptimizedServerMonitor that the render loop
reads and writes (gif_sets and update_intervals["gif_frame"] are fixed
after load_all_gifs and live outside this record). -/
structure MonState where
  current_usage_level : Level
  current_frame : ℕ
  last_frame_time : ℚ
  current_info_page : ℕ
  page_change_time : ℚ
  prev_net_sent : ℤ
  prev_net_recv : ℤ
  prev_net_time : ℚ
  net_up_speed : ℚ
  net_down_speed : ℚ
  cached_stats : Option Stats
  last_stats_update : ℚ
  disk_cache : Option (ℚ × ℚ × ℚ)
  cpu_temp : Option ℚ
  process_count : Option ℕ
deriving DecidableEq

/-- __init__: t0 is the startup wall clock, sent0 / recv0 the initial
psutil.net_io_counters().  disk_cache / cpu_temp / process_count are none
because the corresponding attributes do not exist yet (hasattr is false). -/
def initState (t0 : ℚ) (sent0 recv0 : ℤ) : MonState :=
  { current_usage_level := Level.low
    current_frame := 0
    last_frame_time := 0
    current_info_page := 0
    page_change_time := t0
    prev_net_sent := sent0
    prev_net_recv := recv0
    prev_net_time := t0
    net_up_speed := 0
    net_down_speed := 0
    cached_stats := none
    last_stats_update := 0
    disk_cache := none
    cpu_temp := none
    process_count := none }

/-- update_intervals["stats"]. -/
def statsInterval : ℚ := 1

/-- update_intervals["network"]. -/
def networkInterval : ℚ := 1

/-- update_intervals["page_rotate"]. -/
def pageRotateInterval : ℚ := 3

/-- The initial update_intervals["gif_frame"]; load_gif_frames overwrites it. -/
def defaultGifFrameInterval : ℚ := 1/10

/-- self.info_pages. -/
def info_pages : List String := ["system", "storage", "network", "processes"]

/-- 1024 ** 3, the bytes-to-GB divisor. -/
def gigabyte : ℚ := 1024 ^ 3

/-- The refresh pattern `if not hasattr(self, f) or stale: recompute`:
keep the cached value only if it exists and is not stale. -/
def cache_or {α : Type} (cached : Option α) (stale : Prop) [Decidable stale]
    (fresh : α) : α :=
  match cached with
  | some v => if stale then fresh else v
  | none => fresh

/-- The accumulation loop of get_top_processes: append entries whose
cpu_percent is present and positive, stop once 10 are collected, skip
entries whose info access raised. -/
def collect_procs : List ProcEntry → List ProcInfo → List ProcInfo
  | [], acc => acc
  | ProcEntry.err :: rest, acc => collect_procs rest acc
  | ProcEntry.ok _ none :: rest, acc => collect_procs rest acc
  | ProcEntry.ok nm (some c) :: rest, acc =>
      if 0 < c then
        if 10 ≤ (acc ++ [ProcInfo.mk nm c]).length then acc ++ [ProcInfo.mk nm c]
        else collect_procs rest (acc ++ [ProcInfo.mk nm c])
      else collect_procs rest acc

/-- The comparator of processes.sort(key=cpu_percent, reverse=True). -/
def cpu_ge (a b : ProcInfo) : Bool := decide (b.cpu_percent ≤ a.cpu_percent)

/-- get_top_processes: none models the outer try failing (return []);
otherwise collect at most 10 positive-cpu entries, sort by cpu_percent
descending and keep the first 3. -/
def get_top_processes : Option (List ProcEntry) → List ProcInfo
  | none => []
  | some tbl => (List.mergeSort (collect_procs tbl []) cpu_ge).take 3

/-- update_network_speeds: recompute up/down KB/s from the cumulative
counter deltas only when the network interval has elapsed. -/
def update_network_speeds (env : Env) (st : MonState) (now : ℚ) : MonState :=
  if networkInterval ≤ now - st.prev_net_time then
    let cur := env now
    let time_diff := now - st.prev_net_time
    { st with
      net_up_speed := (((cur.net_sent : ℚ) - (st.prev_net_sent : ℚ)) / time_diff) / 1024
      net_down_speed := (((cur.net_recv : ℚ) - (st.prev_net_recv : ℚ)) / time_diff) / 1024
      prev_net_sent := cur.net_sent
      prev_net_recv := cur.net_recv
      prev_net_time := now }
  else st

/-- The disk triple (disk_percent, disk_free_gb, disk_total_gb) computed
from a fresh psutil.disk_usage call. -/
def fresh_disk (r : Reading) : ℚ × ℚ × ℚ :=
  ((r.disk_used / r.disk_total) * 100, r.disk_free / gigabyte, r.disk_total / gigabyte)

/-- The cache-miss path of get_system_stats: build the stats dict, reusing
the slow-changing attributes (disk, temperature, process count) unless the
time since the last stats update exceeds their window, then cache it. -/
def refresh_stats (env : Env) (st : MonState) (now : ℚ) : Stats × MonState :=
  let r := env now
  let disk := cache_or st.disk_cache (30 < now - st.last_stats_update) (fresh_disk r)
  let temp := cache_or st.cpu_temp (5 < now - st.last_stats_update)
    (match r.temp with | some t => t | none => 0)
  let st1 := update_network_speeds env st now
  let pcount := cache_or st.process_count (10 < now - st.last_stats_update) r.pids
  let top :=
    if info_pages.getD st.current_info_page "" = "processes" then
      get_top_processes r.proc_table
    else []
  let stats : Stats :=
    { cpu_percent := r.cpu_percent
      memory_percent := r.memory_percent
      memory_used_gb := r.memory_used / gigabyte
      memory_total_gb := r.memory_total / gigabyte
      disk_percent := disk.1
      disk_free_gb := disk.2.1
      disk_total_gb := disk.2.2
      cpu_temp := temp
      net_up_speed := st1.net_up_speed
      net_down_speed := st1.net_down_speed
      load_avg := match r.load_avg with | some l => l | none => 0
      process_count := pcount
      top_processes := top }
  (stats,
   { st1 with
     cached_stats := some stats
     last_stats_update := now
     disk_cache := some disk
     cpu_temp := some temp
     process_count := some pcount })

/-- get_system_stats: return the cached dict while it is younger than the
stats interval, otherwise rebuild and re-cache it. -/
def get_system_stats (env : Env) (st : MonState) (now : ℚ) : Stats × MonState :=
  match st.cached_stats with
  | some c =>
      if now - st.last_stats_update < statsInterval then (c, st)
      else refresh_stats env st now
  | none => refresh_stats env st now

/-- determine_usage_level: average of the three capped scores, classified
with hysteresis biased by the current level. -/
def determine_usage_level (stats : Stats) (current_usage_level : Level) : Level :=
  let cpu_score := min (stats.cpu_percent / 100) 1
  let ram_score := min (stats.memory_percent / 100) 1
  let net_score := min ((stats.net_up_speed + stats.net_down_speed) / 1000) 1
  let avg_usage := (cpu_score + ram_score + net_score) / 3
  if avg_usage ≥ 0.7 ∨ (current_usage_level = Level.high ∧ avg_usage ≥ 0.5) then
    Level.high
  else if avg_usage ≥ 0.4 ∨ (current_usage_level = Level.medium ∧ avg_usage ≥ 0.3) then
    Level.medium
  else
    Level.low

/-- A processed 64x48 monochrome frame.  Frames decoded from a file are
abstracted by an identifier; fallback frames record the level label drawn
on them (level.upper()[:4]) and whether the pattern rectangle is filled;
errorFrame is the single "ERR" frame. -/
inductive Frame where
  | decoded (id : ℕ)
  | fallback (level : Level) (lit : Bool)
  | errorFrame
deriving DecidableEq

/-- What the gifs directory holds for one level: no file (os.path.exists
false), a file Image.open cannot read, or a readable gif with an optional
declared per-frame duration in milliseconds and at least one frame. -/
inductive FileStatus where
  | missing
  | unreadable
  | ok (durationMs : Option ℚ) (frame0 : ℕ) (rest : List ℕ)
deriving DecidableEq

/-- The pattern dict of create_default_animation. -/
def animation_pattern : Level → List Bool
  | Level.low => [true, false, false, false]
  | Level.medium => [true, false, true, false]
  | Level.high => [true, true, false, false]

/-- create_default_animation: four frames following the level's pattern,
each labelled with the level. -/
def create_default_animation (level : Level) : List Frame :=
  (animation_pattern level).map (fun b => Frame.fallback level b)

/-- create_error_animation: a single "ERR" frame. -/
def create_error_animation : List Frame := [Frame.errorFrame]

/-- load_gif_frames on an existing path: a readable gif overwrites
update_intervals["gif_frame"] with its declared duration (default 100 ms)
and yields its decoded frames; an unreadable one raises inside the with
block, leaves the interval untouched and yields the error animation. -/
def load_gif_frames (stat : FileStatus) (gifFrameInterval : ℚ) : List Frame × ℚ :=
  match stat with
  | FileStatus.ok d f0 rest => ((f0 :: rest).map Frame.decoded, (d.getD 100) / 1000)
  | _ => (create_error_animation, gifFrameInterval)

/-- self.gif_sets. -/
structure GifSets where
  low : List Frame
  medium : List Frame
  high : List Frame
deriving DecidableEq

/-- gif_sets[level]. -/
def GifSets.get (g : GifSets) : Level → List Frame
  | Level.low => g.low
  | Level.medium => g.medium
  | Level.high => g.high

/-- gif_sets[level] = frames. -/
def GifSets.set (g : GifSets) : Level → List Frame → GifSets
  | Level.low, v => { g with low := v }
  | Level.medium, v => { g with medium := v }
  | Level.high, v => { g with high := v }

/-- The loop order of load_all_gifs. -/
def usage_levels : List Level := [Level.low, Level.medium, Level.high]

/-- One iteration of load_all_gifs: a missing file gets the default
animation, an existing one goes through load_gif_frames. -/
def load_one (fs : Level → FileStatus) (acc : GifSets × ℚ) (level : Level) :
    GifSets × ℚ :=
  match fs level with
  | FileStatus.missing => (acc.1.set level (create_default_animation level), acc.2)
  | stat =>
      let fi := load_gif_frames stat acc.2
      (acc.1.set level fi.1, fi.2)

/-- load_all_gifs: fill the three gif sets in the order low, medium, high,
threading update_intervals["gif_frame"] through. -/
def load_all_gifs (fs : Level → FileStatus) : GifSets × ℚ :=
  usage_levels.foldl (load_one fs) (⟨[], [], []⟩, defaultGifFrameInterval)

/-- The first half of draw_dynamic_gif: when the stats interval has elapsed
since the last stats update, re-run the classifier, and on a level change
switch the level and reset current_frame to 0 (last_frame_time is left
alone). -/
def reclassify (stats : Stats) (st : MonState) (now : ℚ) : MonState :=
  if statsInterval ≤ now - st.last_stats_update then
    let new_level := determine_usage_level stats st.current_usage_level
    if new_level ≠ st.current_usage_level then
      { st with current_usage_level := new_level, current_frame := 0 }
    else st
  else st

/-- The second half of draw_dynamic_gif: return early on an empty set,
otherwise advance the frame cursor modulo the active set length when the
frame interval has elapsed, and report the frame index drawn. -/
def advance_frame (gifs : GifSets) (gifFrameInterval : ℚ) (st : MonState)
    (now : ℚ) : MonState × Option ℕ :=
  let current_gif_set := gifs.get st.current_usage_level
  if current_gif_set = [] then (st, none)
  else
    let st2 :=
      if gifFrameInterval ≤ now - st.last_frame_time then
        { st with
          current_frame := (st.current_frame + 1) % current_gif_set.length
          last_frame_time := now }
      else st
    (st2, some st2.current_frame)

/-- The state mutations of draw_dynamic_gif together with the index of the
frame it draws (none when the active set is empty and the function returns
early).  The pixel blit itself is Display Sink territory. -/
def draw_dynamic_gif (gifs : GifSets) (gifFrameInterval : ℚ) (stats : Stats)
    (st : MonState) (now : ℚ) : MonState × Option ℕ :=
  advance_frame gifs gifFrameInterval (reclassify stats st now) now

/-- The state mutations of draw_info_panel: rotate the page when the
rotation interval has elapsed. -/
def draw_info_panel (st : MonState) (now : ℚ) : MonState :=
  if pageRotateInterval ≤ now - st.page_change_time then
    { st with
      current_info_page := (st.current_info_page + 1) % info_pages.length
      page_change_time := now }
  else st

/-- One render tick (update_display): get_system_stats, draw_dynamic_gif,
draw_info_panel.  Each helper re-reads time.time() in the source; the
sub-tick skew between those reads is modelled as zero, so the whole tick
sees one timestamp, as the concurrency model of the spec prescribes. -/
def update_display (env : Env) (gifs : GifSets) (gifFrameInterval : ℚ)
    (st : MonState) (now : ℚ) : MonState × Option ℕ :=
  let s1 := get_system_stats env st now
  let s2 := draw_dynamic_gif gifs gifFrameInterval s1.1 s1.2 now
  (draw_info_panel s2.1 now, s2.2)

/-- The usage levels the code's loop goes through, one per tick. -/
def code_level_trace (env : Env) (gifs : GifSets) (gifFrameInterval : ℚ)
    (st : MonState) : List ℚ → List Level
  | [] => []
  | t :: ts =>
      let st1 := (update_display env gifs gifFrameInterval st t).1
      st1.current_usage_level :: code_level_trace env gifs gifFrameInterval st1 ts

/-- Modelled from the spec (design note of section 9): the decoupled tick in
which the classifier runs once per tick directly on the (possibly cached)
snapshot the sampling cache returns. -/
def spec_tick_level (env : Env) (st : MonState) (now : ℚ) : MonState :=
  let s1 := get_system_stats env st now
  { s1.2 with
    current_usage_level := determine_usage_level s1.1 s1.2.current_usage_level }

/-- The usage levels of the spec's per-tick classification model. -/
def spec_level_trace (env : Env) (st : MonState) : List ℚ → List Level
  | [] => []
  | t :: ts =>
      let st1 := spec_tick_level env st t
      st1.current_usage_level :: spec_level_trace env st1 ts

/-- One adversarial render-tick input for the gif scheduler: the wall clock,
the snapshot handed to draw_dynamic_gif, and the last_stats_update value the
sampling cache left behind.  Letting these vary freely covers every pattern
of usage-level switches the loop can produce. -/
structure TickIn where
  now : ℚ
  stats : Stats
  last_stats_update : ℚ
deriving DecidableEq

/-- Run draw_dynamic_gif over a sequence of ticks, recording for each tick
the active level and the frame index drawn. -/
def run_draw (gifs : GifSets) (gifFrameInterval : ℚ) :
    MonState → List TickIn → List (Level × Option ℕ)
  | _, [] => []
  | st, tk :: ts =>
      let r := draw_dynamic_gif gifs gifFrameInterval tk.stats
        { st with last_stats_update := tk.last_stats_update } tk.now
      (r.1.current_usage_level, r.2) :: run_draw gifs gifFrameInterval r.1 ts

/-- The scheduler invariant: the frame cursor is inside the active set. -/
def FrameInv (gifs : GifSets) (st : MonState) : Prop :=
  st.current_frame < (gifs.get st.current_usage_level).length

/-- The disk triple of a stats dict. -/
def disk_fields (s : Stats) : ℚ × ℚ × ℚ := (s.disk_percent, s.disk_free_gb, s.disk_total_gb)

/-- Reachable-state fact used for the caching claims: whenever a stats dict
is cached, the disk attributes hold exactly its disk fields (true from the
first refresh on, since both are written together). -/
def DiskWF (st : MonState) : Prop :=
  ∀ c, st.cached_stats = some c → st.disk_cache = some (disk_fields c)

/-- The processes with a present, strictly positive cpu_percent, in
iteration order (the claim's notion of positive-CPU processes). -/
def positive_infos (l : List ProcEntry) : List ProcInfo :=
  l.filterMap (fun e =>
    match e with
    | ProcEntry.ok nm (some c) => if 0 < c then some ⟨nm, c⟩ else none
    | _ => none)

/-- The level label a frame carries, if any. -/
def frame_label : Frame → Option Level
  | Frame.fallback l _ => some l
  | _ => none

/-- The set one level ends up with, as a function of that level's own file
alone (the independence content of the loader claims). -/
def loaded_set : FileStatus → Level → List Frame
  | FileStatus.missing, level => create_default_animation level
  | FileStatus.unreadable, _ => create_error_animation
  | FileStatus.ok _ f0 rest, _ => (f0 :: rest).map Frame.decoded

/-- The frame interval a file would impose if it were the one loaded. -/
def declared_interval : FileStatus → Option ℚ
  | FileStatus.ok d _ _ => some ((d.getD 100) / 1000)
  | _ => none

/-- A quiet constant metrics reading used by the concrete scenarios. -/
def baseReading : Reading :=
  { cpu_percent := 0
    memory_percent := 0
    memory_used := 0
    memory_total := 0
    disk_total := 100
    disk_used := 50
    disk_free := 50
    temp := some 40
    load_avg := some 0
    pids := 0
    proc_table := some []
    net_sent := 0
    net_recv := 0 }

/-- A metrics source whose temperature reading equals the sampling time, so
a stale cached temperature is visible. -/
def c2_env : Env := fun t => { baseReading with temp := some t }

/-- A metrics source whose sent counter has rolled back to 10 while the
received counter stays at 1000. -/
def c3_env : Env := fun _ => { baseReading with net_sent := 10, net_recv := 1000 }

/-- A snapshot with cpu and memory pegged at 100 percent and no network
traffic: its capped scores average 2/3, which classifies as medium. -/
def c4_stats : Stats :=
  { cpu_percent := 100
    memory_percent := 100
    memory_used_gb := 0
    memory_total_gb := 0
    disk_percent := 0
    disk_free_gb := 0
    disk_total_gb := 0
    cpu_temp := 0
    net_up_speed := 0
    net_down_speed := 0
    load_avg := 0
    process_count := 0
    top_processes := [] }

/-- A monitor state mid-animation: frame cursor at 2, timers at 0. -/
def c4_state : MonState := { initState 0 0 0 with current_frame := 2 }

/-- The gif sets loaded when all three files are missing: three 4-frame
default animations. -/
def gifs0 : GifSets := (load_all_gifs (fun _ => FileStatus.missing)).1

/-- A gifs directory where low.gif declares 200 ms per frame, medium.gif is
missing, and high.gif declares 50 ms per frame. -/
def c7_fs : Level → FileStatus
  | Level.low => FileStatus.ok (some 200) 10 [11]
  | Level.medium => FileStatus.missing
  | Level.high => FileStatus.ok (some 50) 20 [21]

/-- A busy reading: cpu and memory at 100 percent. -/
def c9_env : Env := fun _ =>
  { baseReading with cpu_percent := 100, memory_percent := 100 }

/-- One render tick at t = 5 with the busy snapshot: the level switches
from low to medium and the frame timer has long expired. -/
def c5_ticks : List TickIn := [⟨5, c4_stats, 0⟩]

/-- A process table with ten early processes at 1 percent cpu followed by
one at 99 percent. -/
def c10_table : List ProcEntry :=
  [ProcEntry.ok "p1" (some 1), ProcEntry.ok "p2" (some 1), ProcEntry.ok "p3" (some 1),
   ProcEntry.ok "p4" (some 1), ProcEntry.ok "p5" (some 1), ProcEntry.ok "p6" (some 1),
   ProcEntry.ok "p7" (some 1), ProcEntry.ok "p8" (some 1), ProcEntry.ok "p9" (some 1),
   ProcEntry.ok "p10" (some 1), ProcEntry.ok "big" (some 99)]

/-! Helper lemmas about the sampling cache and the scheduler. -/

@[simp] lemma low_ne_medium : Level.low ≠ Level.medium := fun h => nomatch h

@[simp] lemma low_ne_high : Level.low ≠ Level.high := fun h => nomatch h

@[simp] lemma medium_ne_low : Level.medium ≠ Level.low := fun h => nomatch h

@[simp] lemma medium_ne_high : Level.medium ≠ Level.high := fun h => nomatch h

@[simp] lemma high_ne_low : Level.high ≠ Level.low := fun h => nomatch h

@[simp] lemma high_ne_medium : Level.high ≠ Level.medium := fun h => nomatch h

lemma update_network_speeds_level (env : Env) (st : MonState) (now : ℚ) :
    (update_network_speeds env st now).current_usage_level = st.current_usage_level := by
  unfold update_network_speeds; split <;> rfl

lemma refresh_stats_cached (env : Env) (st : MonState) (now : ℚ) :
    (refresh_stats env st now).2.cached_stats = some (refresh_stats env st now).1 := rfl

lemma refresh_stats_last (env : Env) (st : MonState) (now : ℚ) :
    (refresh_stats env st now).2.last_stats_update = now := rfl

lemma refresh_stats_disk (env : Env) (st : MonState) (now : ℚ) :
    disk_fields (refresh_stats env st now).1
      = cache_or st.disk_cache (30 < now - st.last_stats_update) (fresh_disk (env now)) := rfl

lemma refresh_stats_disk_cache (env : Env) (st : MonState) (now : ℚ) :
    (refresh_stats env st now).2.disk_cache
      = some (disk_fields (refresh_stats env st now).1) := rfl

lemma refresh_stats_temp (env : Env) (st : MonState) (now : ℚ) :
    (refresh_stats env st now).2.cpu_temp
      = some (cache_or st.cpu_temp (5 < now - st.last_stats_update)
          (match (env now).temp with | some t => t | none => 0)) := rfl

lemma refresh_stats_level (env : Env) (st : MonState) (now : ℚ) :
    (refresh_stats env st now).2.current_usage_level = st.current_usage_level :=
  update_network_speeds_level env st now

lemma refresh_stats_temp_val (env : Env) (st : MonState) (now : ℚ) :
    (refresh_stats env st now).1.cpu_temp
      = cache_or st.cpu_temp (5 < now - st.last_stats_update)
          (match (env now).temp with | some t => t | none => 0) := rfl

lemma refresh_stats_pcount_val (env : Env) (st : MonState) (now : ℚ) :
    (refresh_stats env st now).1.process_count
      = cache_or st.process_count (10 < now - st.last_stats_update) (env now).pids := rfl

lemma refresh_stats_pcount_cache (env : Env) (st : MonState) (now : ℚ) :
    (refresh_stats env st now).2.process_count
      = some ((refresh_stats env st now).1.process_count) := rfl

lemma cache_or_fresh {α : Type} {cached : Option α} {stale : Prop} [Decidable stale]
    {fresh : α} (h : cached = none ∨ stale) : cache_or cached stale fresh = fresh := by
  cases cached with
  | none => rfl
  | some v =>
      rcases h with h | h
      · exact absurd h (by simp)
      · show (if stale then fresh else v) = fresh
        rw [if_pos h]

lemma cache_or_kept {α : Type} {v : α} {stale : Prop} [Decidable stale]
    {fresh : α} (h : ¬ stale) : cache_or (some v) stale fresh = v := by
  show (if stale then fresh else v) = v
  rw [if_neg h]

lemma get_system_stats_hit (env : Env) (s : MonState) (c : Stats) (now : ℚ)
    (hc : s.cached_stats = some c)
    (hlt : now - s.last_stats_update < statsInterval) :
    get_system_stats env s now = (c, s) := by
  unfold get_system_stats
  rw [hc]
  show (if now - s.last_stats_update < statsInterval then (c, s)
    else refresh_stats env s now) = (c, s)
  rw [if_pos hlt]

lemma get_system_stats_miss (env : Env) (s : MonState) (now : ℚ)
    (h : s.cached_stats = none ∨ statsInterval ≤ now - s.last_stats_update) :
    get_system_stats env s now = refresh_stats env s now := by
  unfold get_system_stats
  cases hc : s.cached_stats with
  | none => rfl
  | some c =>
      show (if now - s.last_stats_update < statsInterval then (c, s)
        else refresh_stats env s now) = refresh_stats env s now
      rcases h with h | h
      · rw [hc] at h
        exact absurd h (by simp)
      · rw [if_neg (not_lt.mpr h)]

lemma get_system_stats_cases (env : Env) (st : MonState) (now : ℚ) :
    (∃ c, st.cached_stats = some c ∧ now - st.last_stats_update < statsInterval ∧
        get_system_stats env st now = (c, st)) ∨
    get_system_stats env st now = refresh_stats env st now := by
  unfold get_system_stats
  cases hc : st.cached_stats with
  | none => exact Or.inr rfl
  | some c =>
      by_cases h : now - st.last_stats_update < statsInterval
      · refine Or.inl ⟨c, rfl, h, ?_⟩
        show (if now - st.last_stats_update < statsInterval then (c, st)
          else refresh_stats env st now) = (c, st)
        rw [if_pos h]
      · refine Or.inr ?_
        show (if now - st.last_stats_update < statsInterval then (c, st)
          else refresh_stats env st now) = refresh_stats env st now
        rw [if_neg h]

lemma reclassify_of_not (stats : Stats) (st : MonState) (now : ℚ)
    (h : ¬ statsInterval ≤ now - st.last_stats_update) :
    reclassify stats st now = st := by
  unfold reclassify; exact if_neg h

lemma advance_frame_level (gifs : GifSets) (fi : ℚ) (st : MonState) (now : ℚ) :
    (advance_frame gifs fi st now).1.current_usage_level = st.current_usage_level := by
  unfold advance_frame
  dsimp only
  split
  · rfl
  · split <;> rfl

lemma draw_info_panel_level (st : MonState) (now : ℚ) :
    (draw_info_panel st now).current_usage_level = st.current_usage_level := by
  unfold draw_info_panel; split <;> rfl

lemma update_display_level (env : Env) (gifs : GifSets) (fi : ℚ) (st : MonState)
    (now : ℚ) :
    (update_display env gifs fi st now).1.current_usage_level = st.current_usage_level := by
  unfold update_display
  dsimp only
  rw [draw_info_panel_level, draw_dynamic_gif, advance_frame_level]
  rcases get_system_stats_cases env st now with ⟨c, hc, hlt, heq⟩ | heq
  · rw [heq, reclassify_of_not _ _ _ (not_le.mpr hlt)]
  · rw [heq, reclassify_of_not, refresh_stats_level]
    rw [refresh_stats_last]
    norm_num [statsInterval]

/-- C1: the classifier returns High when avg is at least 0.70 or the previous
level is High and avg is at least 0.50, else Medium when avg is at least 0.40
or the previous level is Medium and avg is at least 0.30, else Low, with avg
the mean of cpu/100, memory/100 and (up+down)/1000 each capped at 1, the High
test made before the Medium test, and boundaries meeting their thresholds. -/
theorem c1_usage_classifier (stats : Stats) (prev : Level) :
    determine_usage_level stats prev =
      (if 7/10 ≤ (min (stats.cpu_percent / 100) 1 + min (stats.memory_percent / 100) 1
            + min ((stats.net_up_speed + stats.net_down_speed) / 1000) 1) / 3
          ∨ (prev = Level.high ∧
            1/2 ≤ (min (stats.cpu_percent / 100) 1 + min (stats.memory_percent / 100) 1
              + min ((stats.net_up_speed + stats.net_down_speed) / 1000) 1) / 3) then
        Level.high
      else if 2/5 ≤ (min (stats.cpu_percent / 100) 1 + min (stats.memory_percent / 100) 1
            + min ((stats.net_up_speed + stats.net_down_speed) / 1000) 1) / 3
          ∨ (prev = Level.medium ∧
            3/10 ≤ (min (stats.cpu_percent / 100) 1 + min (stats.memory_percent / 100) 1
              + min ((stats.net_up_speed + stats.net_down_speed) / 1000) 1) / 3) then
        Level.medium
      else Level.low) := by
  unfold determine_usage_level
  norm_num

/-- C3 counterexample: with the previous sent counter at 1000 and the current
one rolled back to 10 one second later, update_network_speeds reports a
strictly negative upload rate, not 0. -/
theorem c3_counterexample :
    (update_network_speeds c3_env (initState 0 1000 1000) 1).net_up_speed < 0 := by
  norm_num [update_network_speeds, networkInterval, c3_env, baseReading, initState]

/-- C3 amended: the estimator state is unchanged while less than the 1.0s
network interval has elapsed since the previous sample; once it has elapsed,
the up and down rates are the signed counter deltas over elapsed time over
1024 — strictly negative exactly when the counter decreased, non-negative
exactly when it did not (no clamping to 0) — and the previous sample's
counters and timestamp are overwritten with the current ones. -/
theorem c3_network_rate_signed (env : Env) (st : MonState) (now : ℚ) :
    (now - st.prev_net_time < networkInterval →
        update_network_speeds env st now = st) ∧
    (networkInterval ≤ now - st.prev_net_time →
      (update_network_speeds env st now).net_up_speed
          = (((env now).net_sent : ℚ) - (st.prev_net_sent : ℚ))
              / (now - st.prev_net_time) / 1024 ∧
      (update_network_speeds env st now).net_down_speed
          = (((env now).net_recv : ℚ) - (st.prev_net_recv : ℚ))
              / (now - st.prev_net_time) / 1024 ∧
      (update_network_speeds env st now).prev_net_sent = (env now).net_sent ∧
      (update_network_speeds env st now).prev_net_recv = (env now).net_recv ∧
      (update_network_speeds env st now).prev_net_time = now ∧
      ((env now).net_sent < st.prev_net_sent →
          (update_network_speeds env st now).net_up_speed < 0) ∧
      ((env now).net_recv < st.prev_net_recv →
          (update_network_speeds env st now).net_down_speed < 0) ∧
      (st.prev_net_sent ≤ (env now).net_sent →
          0 ≤ (update_network_speeds env st now).net_up_speed) ∧
      (st.prev_net_recv ≤ (env now).net_recv →
          0 ≤ (update_network_speeds env st now).net_down_speed)) := by
  constructor
  · intro hlt
    unfold update_network_speeds
    rw [if_neg (not_le.mpr hlt)]
  intro h
  have htd : 0 < now - st.prev_net_time := by
    have h1 : (0 : ℚ) < networkInterval := by norm_num [networkInterval]
    linarith
  have hup : (update_network_speeds env st now).net_up_speed
      = (((env now).net_sent : ℚ) - (st.prev_net_sent : ℚ)) / (now - st.prev_net_time) / 1024 := by
    unfold update_network_speeds
    rw [if_pos h]
  have hdown : (update_network_speeds env st now).net_down_speed
      = (((env now).net_recv : ℚ) - (st.prev_net_recv : ℚ)) / (now - st.prev_net_time) / 1024 := by
    unfold update_network_speeds
    rw [if_pos h]
  have hsent : (update_network_speeds env st now).prev_net_sent = (env now).net_sent := by
    unfold update_network_speeds
    rw [if_pos h]
  have hrecv : (update_network_speeds env st now).prev_net_recv = (env now).net_recv := by
    unfold update_network_speeds
    rw [if_pos h]
  have htime : (update_network_speeds env st now).prev_net_time = now := by
    unfold update_network_speeds
    rw [if_pos h]
  refine ⟨hup, hdown, hsent, hrecv, htime, ?_, ?_, ?_, ?_⟩
  · intro hlt
    rw [hup]
    have hnum : (((env now).net_sent : ℚ) - (st.prev_net_sent : ℚ)) < 0 := by
      have hcast : (((env now).net_sent : ℚ)) < ((st.prev_net_sent : ℚ)) := by
        exact_mod_cast hlt
      linarith
    exact div_neg_of_neg_of_pos (div_neg_of_neg_of_pos hnum htd) (by norm_num)
  · intro hlt
    rw [hdown]
    have hnum : (((env now).net_recv : ℚ) - (st.prev_net_recv : ℚ)) < 0 := by
      have hcast : (((env now).net_recv : ℚ)) < ((st.prev_net_recv : ℚ)) := by
        exact_mod_cast hlt
      linarith
    exact div_neg_of_neg_of_pos (div_neg_of_neg_of_pos hnum htd) (by norm_num)
  · intro hle
    rw [hup]
    have hnum : (0 : ℚ) ≤ ((env now).net_sent : ℚ) - (st.prev_net_sent : ℚ) := by
      have hcast : ((st.prev_net_sent : ℚ)) ≤ (((env now).net_sent : ℚ)) := by
        exact_mod_cast hle
      linarith
    exact div_nonneg (div_nonneg hnum htd.le) (by norm_num)
  · intro hle
    rw [hdown]
    have hnum : (0 : ℚ) ≤ ((env now).net_recv : ℚ) - (st.prev_net_recv : ℚ) := by
      have hcast : ((st.prev_net_recv : ℚ)) ≤ (((env now).net_recv : ℚ)) := by
        exact_mod_cast hle
      linarith
    exact div_nonneg (div_nonneg hnum htd.le) (by norm_num)

/-- C3 witness: the amended statement applied to the rollback scenario,
with the elapsed-interval hypothesis discharged concretely. -/
theorem c3_witness :
    (update_network_speeds c3_env (initState 0 1000 1000) 1).net_up_speed
      = (((c3_env 1).net_sent : ℚ) - (((initState 0 1000 1000) : MonState).prev_net_sent : ℚ))
          / (1 - ((initState 0 1000 1000) : MonState).prev_net_time) / 1024 :=
  ((c3_network_rate_signed c3_env (initState 0 1000 1000) 1).2
    (by norm_num [networkInterval, initState])).1

/-- C6: the page cursor advances by exactly one position modulo 4 when and
only when at least the 3-second rotation interval has elapsed since the last
page change, over the fixed page list system, storage, network, processes. -/
theorem c6_page_cursor (st : MonState) (now : ℚ) (hlt : st.current_info_page < 4) :
    (pageRotateInterval ≤ now - st.page_change_time →
        (draw_info_panel st now).current_info_page = (st.current_info_page + 1) % 4 ∧
        (draw_info_panel st now).page_change_time = now) ∧
    (now - st.page_change_time < pageRotateInterval → draw_info_panel st now = st) ∧
    (draw_info_panel st now).current_info_page < 4 ∧
    pageRotateInterval = 3 ∧
    info_pages = ["system", "storage", "network", "processes"] := by
  unfold draw_info_panel
  by_cases h : pageRotateInterval ≤ now - st.page_change_time
  · rw [if_pos h]
    refine ⟨fun _ => ⟨by norm_num [info_pages], rfl⟩, fun hc => absurd h (not_le.mpr hc), ?_, rfl, rfl⟩
    show (st.current_info_page + 1) % info_pages.length < 4
    norm_num [info_pages]
    omega
  · rw [if_neg h]
    exact ⟨fun hc => absurd hc h, fun _ => rfl, hlt, rfl, rfl⟩

/-- C6 witness: from page 0 with the timer expired, the cursor moves to
page 1 and records the change time. -/
theorem c6_witness :
    (draw_info_panel (initState 0 0 0) 10).current_info_page
        = ((initState 0 0 0 : MonState).current_info_page + 1) % 4 ∧
    (draw_info_panel (initState 0 0 0) 10).page_change_time = 10 :=
  (c6_page_cursor (initState 0 0 0) 10 (by norm_num [initState])).1
    (by norm_num [initState, pageRotateInterval])

lemma second_call_disk (env : Env) (st2 : MonState) (t2 : ℚ) (c : Stats)
    (hc : st2.cached_stats = some c)
    (hd : st2.disk_cache = some (disk_fields c))
    (h30 : ¬ (30 : ℚ) < t2 - st2.last_stats_update) :
    disk_fields (get_system_stats env st2 t2).1 = disk_fields c := by
  rcases get_system_stats_cases env st2 t2 with ⟨c2, hc2, _, heq⟩ | heq
  · have hcc : c2 = c := by
      rw [hc] at hc2
      exact (Option.some.inj hc2).symm
    rw [heq, hcc]
  · rw [heq, refresh_stats_disk, hd]
    show (if (30 : ℚ) < t2 - st2.last_stats_update then fresh_disk (env t2)
      else disk_fields c) = disk_fields c
    rw [if_neg h30]

/-- C2 amended: a snapshot younger than the 1.0s stats interval is served
from the bundle cache untouched; otherwise the bundle refreshes, and during
a refresh each slow group (temperature 5s, process_count 10s, disk 30s) is
re-queried from the source exactly when it was never sampled or the time
since the previous bundle update strictly exceeds its window — the baseline
is the bundle timestamp, not the group's own last sample time — and is the
kept cached value otherwise; the refresh re-caches every group value and the
bundle timestamp.  Consequently two calls at most 5 seconds apart return
identical disk fields, and a call whose bundle gap is at most 5 seconds
keeps the cached temperature whatever the source now reads. -/
theorem c2_bundle_keyed_caching (env : Env) (st : MonState) (t1 t2 : ℚ)
    (hwf : DiskWF st) (h12 : t1 ≤ t2) (h5 : t2 ≤ t1 + 5) :
    (∀ (s : MonState) (c : Stats) (now : ℚ), s.cached_stats = some c →
        now - s.last_stats_update < statsInterval →
        get_system_stats env s now = (c, s)) ∧
    (∀ (s : MonState) (now : ℚ),
        s.cached_stats = none ∨ statsInterval ≤ now - s.last_stats_update →
        get_system_stats env s now = refresh_stats env s now) ∧
    (∀ (s : MonState) (now : ℚ),
        (s.cpu_temp = none ∨ (5 : ℚ) < now - s.last_stats_update →
          (refresh_stats env s now).1.cpu_temp
            = (match (env now).temp with | some t => t | none => 0)) ∧
        (∀ v, s.cpu_temp = some v → ¬ (5 : ℚ) < now - s.last_stats_update →
          (refresh_stats env s now).1.cpu_temp = v)) ∧
    (∀ (s : MonState) (now : ℚ),
        (s.process_count = none ∨ (10 : ℚ) < now - s.last_stats_update →
          (refresh_stats env s now).1.process_count = (env now).pids) ∧
        (∀ p, s.process_count = some p → ¬ (10 : ℚ) < now - s.last_stats_update →
          (refresh_stats env s now).1.process_count = p)) ∧
    (∀ (s : MonState) (now : ℚ),
        (s.disk_cache = none ∨ (30 : ℚ) < now - s.last_stats_update →
          disk_fields (refresh_stats env s now).1 = fresh_disk (env now)) ∧
        (∀ d, s.disk_cache = some d → ¬ (30 : ℚ) < now - s.last_stats_update →
          disk_fields (refresh_stats env s now).1 = d)) ∧
    (∀ (s : MonState) (now : ℚ),
        (refresh_stats env s now).2.cpu_temp
            = some (refresh_stats env s now).1.cpu_temp ∧
        (refresh_stats env s now).2.process_count
            = some (refresh_stats env s now).1.process_count ∧
        (refresh_stats env s now).2.disk_cache
            = some (disk_fields (refresh_stats env s now).1) ∧
        (refresh_stats env s now).2.last_stats_update = now) ∧
    disk_fields (get_system_stats env (get_system_stats env st t1).2 t2).1
      = disk_fields (get_system_stats env st t1).1 ∧
    (∀ v, st.cpu_temp = some v → t1 - st.last_stats_update ≤ 5 →
      (get_system_stats env st t1).2.cpu_temp = some v) := by
  have hsi : (statsInterval : ℚ) = 1 := rfl
  refine ⟨?_, ?_, ?_, ?_, ?_, ?_, ?_, ?_⟩
  · exact fun s c now hc hl => get_system_stats_hit env s c now hc hl
  · exact fun s now h => get_system_stats_miss env s now h
  · intro s now
    constructor
    · intro h
      rw [refresh_stats_temp_val]
      exact cache_or_fresh h
    · intro v hv h
      rw [refresh_stats_temp_val, hv]
      exact cache_or_kept h
  · intro s now
    constructor
    · intro h
      rw [refresh_stats_pcount_val]
      exact cache_or_fresh h
    · intro p hp h
      rw [refresh_stats_pcount_val, hp]
      exact cache_or_kept h
  · intro s now
    constructor
    · intro h
      rw [refresh_stats_disk]
      exact cache_or_fresh h
    · intro d hd h
      rw [refresh_stats_disk, hd]
      exact cache_or_kept h
  · exact fun s now => ⟨rfl, rfl, rfl, rfl⟩
  · rcases get_system_stats_cases env st t1 with ⟨c, hc, hlt, heq⟩ | heq
    · rw [heq]
      exact second_call_disk env st t2 c hc (hwf c hc)
        (not_lt.mpr (by rw [hsi] at hlt; linarith))
    · rw [heq]
      apply second_call_disk env (refresh_stats env st t1).2 t2 (refresh_stats env st t1).1
        (refresh_stats_cached env st t1) (refresh_stats_disk_cache env st t1)
      rw [refresh_stats_last]
      exact not_lt.mpr (by linarith)
  · intro v hv hle
    rcases get_system_stats_cases env st t1 with ⟨c, hc, hlt, heq⟩ | heq
    · rw [heq]
      exact hv
    · rw [heq, refresh_stats_temp, hv]
      show some (if (5 : ℚ) < t1 - st.last_stats_update then
        (match (env t1).temp with | some t => t | none => 0) else v) = some v
      rw [if_neg (not_lt.mpr hle)]

/-- C2 counterexample: snapshots taken at t = 100, 102 and 107 with a source
whose temperature reading equals the clock.  The third call comes 7 seconds
after the temperature group's only sample (taken at t = 100), yet it still
returns the cached 100 instead of re-querying the source value 107, because
the 5-second check is made against the bundle timestamp 102. -/
theorem c2_counterexample :
    (get_system_stats c2_env (get_system_stats c2_env
        (get_system_stats c2_env (initState 100 0 0) 100).2 102).2 107).1.cpu_temp = 100 ∧
    (c2_env 107).temp = some 107 ∧ (5 : ℚ) ≤ 107 - 100 ∧ (100 : ℚ) ≠ 107 := by
  refine ⟨?_, rfl, by norm_num, by norm_num⟩
  norm_num [get_system_stats, refresh_stats, update_network_speeds, cache_or,
    initState, c2_env, baseReading, statsInterval, networkInterval, info_pages,
    get_top_processes, gigabyte, fresh_disk]

/-- C2 witness: the amended statement applied to two concrete calls 3
seconds apart from the freshly initialized state. -/
theorem c2_witness :
    disk_fields (get_system_stats c2_env (get_system_stats c2_env
        (initState 100 0 0) 200).2 203).1
      = disk_fields (get_system_stats c2_env (initState 100 0 0) 200).1 :=
  (c2_bundle_keyed_caching c2_env (initState 100 0 0) 200 203
    (fun c hc => Option.noConfusion hc) (by norm_num) (by norm_num)).2.2.2.2.2.2.1

/-- C4 counterexample: mid-animation at frame 2, a tick at t = 5 switches
the level from low to medium; the index is reset to 0, but because
last_frame_time was not reset the expired frame timer advances the cursor
in the same tick, and the frame actually drawn is 1, not 0. -/
theorem c4_counterexample :
    (draw_dynamic_gif gifs0 defaultGifFrameInterval c4_stats c4_state 5).1.current_usage_level
        ≠ c4_state.current_usage_level ∧
    (draw_dynamic_gif gifs0 defaultGifFrameInterval c4_stats c4_state 5).2 = some 1 := by
  norm_num [draw_dynamic_gif, reclassify, advance_frame, determine_usage_level,
    c4_stats, c4_state, initState, statsInterval, defaultGifFrameInterval, gifs0,
    load_all_gifs, usage_levels, load_one, GifSets.set, GifSets.get,
    create_default_animation, animation_pattern, min_def, List.cons_ne_nil]

/-- C4 amended: on the tick where the active level changes, the frame index
is reset to 0 but last_frame_time is left unchanged; the frame drawn is 0
exactly when the frame timer has not yet expired at that tick, and otherwise
the cursor advances immediately and 1 mod the new set's length is drawn with
last_frame_time set to now. -/
theorem c4_level_change_resets_index (gifs : GifSets) (fi : ℚ) (stats : Stats)
    (st : MonState) (now : ℚ)
    (helapsed : statsInterval ≤ now - st.last_stats_update)
    (hchg : determine_usage_level stats st.current_usage_level ≠ st.current_usage_level)
    (hne : gifs.get (determine_usage_level stats st.current_usage_level) ≠ []) :
    (draw_dynamic_gif gifs fi stats st now).1.current_usage_level
        = determine_usage_level stats st.current_usage_level ∧
    (¬ fi ≤ now - st.last_frame_time →
        (draw_dynamic_gif gifs fi stats st now).2 = some 0 ∧
        (draw_dynamic_gif gifs fi stats st now).1.last_frame_time = st.last_frame_time) ∧
    (fi ≤ now - st.last_frame_time →
        (draw_dynamic_gif gifs fi stats st now).2
            = some (1 % (gifs.get (determine_usage_level stats st.current_usage_level)).length) ∧
        (draw_dynamic_gif gifs fi stats st now).1.last_frame_time = now) := by
  have hrc : reclassify stats st now
      = { st with current_usage_level := determine_usage_level stats st.current_usage_level,
                  current_frame := 0 } := by
    unfold reclassify
    rw [if_pos helapsed]
    dsimp only
    rw [if_pos hchg]
  unfold draw_dynamic_gif
  rw [hrc]
  unfold advance_frame
  dsimp only
  rw [if_neg hne]
  by_cases hadv : fi ≤ now - st.last_frame_time
  · rw [if_pos hadv]
    exact ⟨rfl, fun hc => absurd hadv hc, fun _ => ⟨rfl, rfl⟩⟩
  · rw [if_neg hadv]
    exact ⟨rfl, fun _ => ⟨rfl, rfl⟩, fun hc => absurd hc hadv⟩

/-- C4 witness: the amended statement applied to the switch tick of the
counterexample scenario, in which the frame timer has expired. -/
theorem c4_witness :
    (draw_dynamic_gif gifs0 defaultGifFrameInterval c4_stats (initState 0 0 0) 5).2
        = some (1 % (gifs0.get (determine_usage_level c4_stats
            (initState 0 0 0 : MonState).current_usage_level)).length) ∧
    (draw_dynamic_gif gifs0 defaultGifFrameInterval c4_stats
        (initState 0 0 0) 5).1.last_frame_time = 5 :=
  (c4_level_change_resets_index gifs0 defaultGifFrameInterval c4_stats (initState 0 0 0) 5
      (by norm_num [statsInterval, initState])
      (by norm_num [determine_usage_level, c4_stats, initState, min_def])
      (by norm_num [determine_usage_level, c4_stats, initState, min_def, gifs0,
        load_all_gifs, usage_levels, load_one, GifSets.set, GifSets.get,
        create_default_animation, animation_pattern, List.cons_ne_nil])).2.2
    (by norm_num [defaultGifFrameInterval, initState])

/-! The scheduler invariant for C5. -/

lemma reclassify_inv (gifs : GifSets) (stats : Stats) (st : MonState) (now : ℚ)
    (hne : ∀ l, gifs.get l ≠ []) (h : FrameInv gifs st) :
    FrameInv gifs (reclassify stats st now) := by
  unfold reclassify
  split
  · dsimp only
    split
    · show (0 : ℕ) < (gifs.get (determine_usage_level stats st.current_usage_level)).length
      exact List.length_pos.mpr (hne _)
    · exact h
  · exact h

lemma advance_frame_inv (gifs : GifSets) (fi : ℚ) (st : MonState) (now : ℚ)
    (hne : ∀ l, gifs.get l ≠ []) (h : FrameInv gifs st) :
    FrameInv gifs (advance_frame gifs fi st now).1 ∧
    (advance_frame gifs fi st now).2
      = some (advance_frame gifs fi st now).1.current_frame := by
  unfold advance_frame
  dsimp only
  rw [if_neg (hne st.current_usage_level)]
  refine ⟨?_, rfl⟩
  split
  · show (st.current_frame + 1) % (gifs.get st.current_usage_level).length
      < (gifs.get st.current_usage_level).length
    exact Nat.mod_lt _ (List.length_pos.mpr (hne _))
  · exact h

lemma draw_dynamic_gif_bounds (gifs : GifSets) (fi : ℚ) (stats : Stats)
    (st : MonState) (now : ℚ) (hne : ∀ l, gifs.get l ≠ []) (h : FrameInv gifs st) :
    FrameInv gifs (draw_dynamic_gif gifs fi stats st now).1 ∧
    (draw_dynamic_gif gifs fi stats st now).2
      = some (draw_dynamic_gif gifs fi stats st now).1.current_frame :=
  advance_frame_inv gifs fi (reclassify stats st now) now hne
    (reclassify_inv gifs stats st now hne h)

lemma run_draw_bounds (gifs : GifSets) (fi : ℚ) (hne : ∀ l, gifs.get l ≠ []) :
    ∀ (ticks : List TickIn) (st : MonState), FrameInv gifs st →
      ∀ p ∈ run_draw gifs fi st ticks, ∀ i, p.2 = some i → i < (gifs.get p.1).length := by
  intro ticks
  induction ticks with
  | nil =>
      intro st _ p hp
      simp [run_draw] at hp
  | cons tk ts ih =>
      intro st hinv p hp
      simp only [run_draw, List.mem_cons] at hp
      have hinv2 : FrameInv gifs { st with last_stats_update := tk.last_stats_update } := hinv
      obtain ⟨ha, hb⟩ := draw_dynamic_gif_bounds gifs fi tk.stats
        { st with last_stats_update := tk.last_stats_update } tk.now hne hinv2
      rcases hp with hp | hp
      · intro i hi
        rw [hp] at hi ⊢
        dsimp only at hi ⊢
        rw [hb] at hi
        have hi2 := Option.some.inj hi
        rw [← hi2]
        exact ha
      · exact ih _ ha p hp

/-- C5: starting from the initial state, over any tick sequence (hence any
pattern of usage-level switches, including between sets of different
lengths), every frame index drawn is strictly below the active set's
length, provided each set has length at least 1. -/
theorem c5_frame_index_in_bounds (gifs : GifSets) (fi : ℚ) (ticks : List TickIn)
    (hne : ∀ l, gifs.get l ≠ []) :
    ∀ p ∈ run_draw gifs fi (initState 0 0 0) ticks,
      ∀ i, p.2 = some i → i < (gifs.get p.1).length :=
  run_draw_bounds gifs fi hne ticks (initState 0 0 0)
    (List.length_pos.mpr (hne Level.low))

/-- C5 witness: on the concrete switch tick the drawn frame index 1 is
inside the 4-frame medium set. -/
theorem c5_witness : (1 : ℕ) < (gifs0.get Level.medium).length :=
  c5_frame_index_in_bounds gifs0 defaultGifFrameInterval c5_ticks
    (by intro l; cases l <;> simp [gifs0, load_all_gifs, usage_levels, load_one,
      GifSets.set, GifSets.get, create_default_animation, animation_pattern])
    (Level.medium, some 1)
    (by norm_num [run_draw, draw_dynamic_gif, reclassify, advance_frame,
      determine_usage_level, c5_ticks, c4_stats, initState, statsInterval,
      defaultGifFrameInterval, gifs0, load_all_gifs, usage_levels, load_one,
      GifSets.set, GifSets.get, create_default_animation, animation_pattern, min_def,
      List.cons_ne_nil])
    1 rfl

/-- C7 counterexample: with low.gif declaring 200 ms per frame and high.gif
declaring 50 ms, loading leaves the single shared interval at 0.05 s; a tick
for the active low level 0.06 s after the last frame advance then moves the
cursor (drawn index 1), although low's own declared duration 0.2 s has not
elapsed — so the interval compared is not the active level's declared one. -/
theorem c7_counterexample :
    (load_all_gifs c7_fs).2 = 1/20 ∧
    (load_gif_frames (c7_fs Level.low) defaultGifFrameInterval).2 = 1/5 ∧
    ((1 : ℚ)/20) ≠ 1/5 ∧
    (draw_dynamic_gif (load_all_gifs c7_fs).1 (load_all_gifs c7_fs).2 c4_stats
        (initState 0 0 0) (6/100)).2 = some 1 := by
  refine ⟨?_, ?_, by norm_num, ?_⟩
  · norm_num [load_all_gifs, usage_levels, load_one, load_gif_frames, c7_fs,
      defaultGifFrameInterval]
  · norm_num [load_gif_frames, c7_fs, defaultGifFrameInterval]
  · norm_num [draw_dynamic_gif, reclassify, advance_frame, determine_usage_level,
      c4_stats, initState, statsInterval, defaultGifFrameInterval, c7_fs,
      load_all_gifs, usage_levels, load_one, load_gif_frames, GifSets.set,
      GifSets.get, min_def, List.cons_ne_nil]

/-- C7 amended: update_intervals["gif_frame"] is one global value shared by
every level: the declared per-frame duration of the last gif file opened in
the load order low, medium, high (millisecond field defaulted to 100, hence
0.1 s), or the initial 0.1 s when no file was opened; the active level's own
declared duration plays no role in the per-tick comparison. -/
theorem c7_shared_frame_interval (fs : Level → FileStatus) :
    (load_all_gifs fs).2 =
      (declared_interval (fs Level.high)).getD
        ((declared_interval (fs Level.medium)).getD
          ((declared_interval (fs Level.low)).getD defaultGifFrameInterval)) := by
  cases h1 : fs Level.low <;> cases h2 : fs Level.medium <;> cases h3 : fs Level.high <;>
    simp [load_all_gifs, usage_levels, load_one, load_gif_frames, declared_interval,
      h1, h2, h3]

lemma load_all_gifs_get (fs : Level → FileStatus) (level : Level) :
    (load_all_gifs fs).1.get level = loaded_set (fs level) level := by
  cases level <;>
    cases h1 : fs Level.low <;> cases h2 : fs Level.medium <;> cases h3 : fs Level.high <;>
      simp [load_all_gifs, usage_levels, load_one, load_gif_frames, loaded_set,
        GifSets.get, GifSets.set, create_error_animation, h1, h2, h3]

/-- C8: after loading, every level owns a non-empty frame sequence; a
missing file yields the 4-frame synthesized animation whose frames all
carry that level's label, an unreadable file yields the non-empty error
animation, and the set a level receives depends on that level's file
alone. -/
theorem c8_loader_fallbacks (fs : Level → FileStatus) (level : Level) :
    (load_all_gifs fs).1.get level ≠ [] ∧
    (fs level = FileStatus.missing →
      (load_all_gifs fs).1.get level = create_default_animation level ∧
      ∀ f ∈ (load_all_gifs fs).1.get level, frame_label f = some level) ∧
    (fs level = FileStatus.unreadable →
      (load_all_gifs fs).1.get level = create_error_animation) ∧
    (∀ fs2 : Level → FileStatus, fs2 level = fs level →
      (load_all_gifs fs2).1.get level = (load_all_gifs fs).1.get level) := by
  refine ⟨?_, fun hm => ⟨?_, ?_⟩, fun hu => ?_, fun fs2 h2 => ?_⟩
  · rw [load_all_gifs_get]
    cases hf : fs level with
    | missing =>
        cases level <;>
          simp [loaded_set, create_default_animation, animation_pattern]
    | unreadable => simp [loaded_set, create_error_animation]
    | ok d f0 rest => simp [loaded_set]
  · rw [load_all_gifs_get, hm]
    rfl
  · rw [load_all_gifs_get, hm]
    intro f hf
    simp only [loaded_set, create_default_animation, List.mem_map] at hf
    obtain ⟨b, _, rfl⟩ := hf
    rfl
  · rw [load_all_gifs_get, hu]
    rfl
  · rw [load_all_gifs_get, load_all_gifs_get, h2]

/-- C8 witness: with all three files missing, the low level receives the
synthesized default animation. -/
theorem c8_witness :
    (load_all_gifs (fun _ => FileStatus.missing)).1.get Level.low
      = create_default_animation Level.low :=
  ((c8_loader_fallbacks (fun _ => FileStatus.missing) Level.low).2.1 rfl).1

/-- C9 counterexample: one tick at t = 0 with cpu and memory at 100 percent.
The spec's per-tick model classifies the snapshot (average 2/3) as medium;
the code's throttled model, whose check runs against the cache timestamp
that the same tick just refreshed, leaves the level at low. -/
theorem c9_counterexample :
    spec_level_trace c9_env (initState 0 0 0) [0] = [Level.medium] ∧
    code_level_trace c9_env gifs0 defaultGifFrameInterval (initState 0 0 0) [0]
      = [Level.low] ∧
    Level.medium ≠ Level.low := by
  refine ⟨?_, ?_, by simp⟩
  · norm_num [spec_level_trace, spec_tick_level, get_system_stats, refresh_stats,
      update_network_speeds, determine_usage_level, cache_or, initState, c9_env,
      baseReading, networkInterval, statsInterval, info_pages, get_top_processes,
      gigabyte, fresh_disk, min_def]
  · simp [code_level_trace, update_display_level, initState]

/-- C9 amended: the two models are not equivalent.  Under the
one-timestamp-per-tick model, the throttling check of draw_dynamic_gif runs
after get_system_stats has already refreshed (or validated) the cache with
the same timestamp, so it never fires: over any tick sequence and any
metrics source the code's usage level stays at its starting value, while
the spec model re-classifies every tick. -/
theorem c9_code_level_constant (env : Env) (gifs : GifSets) (fi : ℚ)
    (st : MonState) (ts : List ℚ) :
    code_level_trace env gifs fi st ts = ts.map (fun _ => st.current_usage_level) := by
  induction ts generalizing st with
  | nil => rfl
  | cons t ts ih =>
      simp only [code_level_trace, List.map_cons]
      rw [ih]
      simp only [update_display_level]

/-! The C10 helper lemmas. -/

lemma collect_procs_take (l : List ProcEntry) :
    ∀ acc : List ProcInfo, acc.length < 10 →
      collect_procs l acc = (acc ++ positive_infos l).take 10 := by
  induction l with
  | nil =>
      intro acc hlen
      simp only [collect_procs, positive_infos, List.filterMap_nil, List.append_nil]
      rw [List.take_of_length_le hlen.le]
  | cons e rest ih =>
      intro acc hlen
      cases e with
      | err =>
          simp only [collect_procs, positive_infos, List.filterMap_cons]
          exact ih acc hlen
      | ok nm cpu =>
          cases cpu with
          | none =>
              simp only [collect_procs, positive_infos, List.filterMap_cons]
              exact ih acc hlen
          | some c =>
              by_cases hc : 0 < c
              · simp only [collect_procs, positive_infos, List.filterMap_cons, if_pos hc]
                by_cases h10 : 10 ≤ (acc ++ [ProcInfo.mk nm c]).length
                · rw [if_pos h10]
                  have hlen9 : acc.length = 9 := by
                    simp only [List.length_append, List.length_cons,
                      List.length_nil] at h10
                    omega
                  rw [show acc ++ ProcInfo.mk nm c ::
                        List.filterMap _ rest
                      = (acc ++ [ProcInfo.mk nm c]) ++
                        List.filterMap (fun e =>
                          match e with
                          | ProcEntry.ok nm (some c) =>
                              if 0 < c then some ⟨nm, c⟩ else none
                          | _ => none) rest from by
                    simp]
                  rw [List.take_append_eq_append_take]
                  have hl10 : (acc ++ [ProcInfo.mk nm c]).length = 10 := by
                    simp [hlen9]
                  rw [List.take_of_length_le (le_of_eq hl10), hl10]
                  simp
                · rw [if_neg h10]
                  have hlt : (acc ++ [ProcInfo.mk nm c]).length < 10 := by
                    omega
                  rw [ih (acc ++ [ProcInfo.mk nm c]) hlt]
                  congr 1
                  simp [positive_infos]
              · simp only [collect_procs, positive_infos, List.filterMap_cons, if_neg hc]
                exact ih acc hlen

lemma get_top_subset (tbl : List ProcEntry) :
    ∀ p ∈ get_top_processes (some tbl), p ∈ (positive_infos tbl).take 10 := by
  intro p hp
  have h1 : p ∈ List.mergeSort (collect_procs tbl []) cpu_ge :=
    List.take_subset 3 _ hp
  have h2 : p ∈ collect_procs tbl [] :=
    (List.mergeSort_perm (collect_procs tbl []) cpu_ge).subset h1
  rw [collect_procs_take tbl [] (by norm_num)] at h2
  simpa using h2

lemma positive_infos_pos (l : List ProcEntry) :
    ∀ p ∈ positive_infos l, 0 < p.cpu_percent := by
  intro p hp
  unfold positive_infos at hp
  rw [List.mem_filterMap] at hp
  obtain ⟨e, _, he⟩ := hp
  cases e with
  | err => exact absurd he (by simp)
  | ok nm cpu =>
      cases cpu with
      | none => exact absurd he (by simp)
      | some c =>
          by_cases hc : 0 < c
          · have he2 : some (ProcInfo.mk nm c) = some p := by
              rw [← he]
              dsimp only
              rw [if_pos hc]
            cases Option.some.inj he2
            exact hc
          · refine absurd he ?_
            dsimp only
            rw [if_neg hc]
            simp

lemma get_top_sorted (tbl : List ProcEntry) :
    List.Pairwise (fun a b => b.cpu_percent ≤ a.cpu_percent)
      (get_top_processes (some tbl)) := by
  have htrans : ∀ a b c : ProcInfo,
      cpu_ge a b = true → cpu_ge b c = true → cpu_ge a c = true := by
    intro a b c hab hbc
    simp only [cpu_ge, decide_eq_true_eq] at hab hbc ⊢
    exact le_trans hbc hab
  have htot : ∀ a b : ProcInfo, (cpu_ge a b || cpu_ge b a) = true := by
    intro a b
    simp only [cpu_ge, Bool.or_eq_true, decide_eq_true_eq]
    exact le_total b.cpu_percent a.cpu_percent
  have hs := List.sorted_mergeSort htrans htot (collect_procs tbl [])
  have hp := List.Pairwise.sublist
    (List.take_sublist 3 (List.mergeSort (collect_procs tbl []) cpu_ge)) hs
  exact hp.imp (fun h => by
    simpa [cpu_ge, decide_eq_true_eq] using h)

/-- C10: the top-process list has at most 3 entries, is sorted by
non-increasing cpu_percent, holds only entries with a present and strictly
positive cpu_percent drawn from the first 10 positive-CPU processes in
iteration order, and is empty on an enumeration failure; consequently a
high-CPU process appearing after ten positive ones is dropped even when it
beats every selected entry. -/
theorem c10_top_processes (tbl : Option (List ProcEntry)) :
    (get_top_processes tbl).length ≤ 3 ∧
    List.Pairwise (fun a b => b.cpu_percent ≤ a.cpu_percent) (get_top_processes tbl) ∧
    (∀ l, tbl = some l →
      ∀ p ∈ get_top_processes tbl,
        0 < p.cpu_percent ∧ p ∈ (positive_infos l).take 10) ∧
    (tbl = none → get_top_processes tbl = []) ∧
    (ProcInfo.mk "big" 99 ∈ positive_infos c10_table ∧
      (∀ p ∈ get_top_processes (some c10_table), p.cpu_percent < 99) ∧
      ProcInfo.mk "big" 99 ∉ get_top_processes (some c10_table)) := by
  have hval : ∀ p ∈ (positive_infos c10_table).take 10, p.cpu_percent = 1 := by
    intro p hp
    norm_num [positive_infos, c10_table, List.filterMap_cons] at hp
    rcases hp with rfl | rfl | rfl | rfl | rfl | rfl | rfl | rfl | rfl | rfl <;> rfl
  have hlt99 : ∀ p ∈ get_top_processes (some c10_table), p.cpu_percent < 99 := by
    intro p hp
    rw [hval p (get_top_subset c10_table p hp)]
    norm_num
  refine ⟨?_, ?_, ?_, ?_, ?_, hlt99, ?_⟩
  · cases tbl with
    | none => simp [get_top_processes]
    | some l => exact List.length_take_le 3 _
  · cases tbl with
    | none => simp [get_top_processes]
    | some l => exact get_top_sorted l
  · intro l hl p hp
    subst hl
    exact ⟨positive_infos_pos l p
        (List.take_subset 10 _ (get_top_subset l p hp)),
      get_top_subset l p hp⟩
  · intro h
    subst h
    rfl
  · norm_num [positive_infos, c10_table, List.filterMap_cons]
  · intro hmem
    have := hlt99 (ProcInfo.mk "big" 99) hmem
    norm_num at this

/-- C10 witness: the enumeration-failure case returns the empty list. -/
theorem c10_witness : get_top_processes none = [] :=
  (c10_top_processes none).2.2.2.1 rfl

end ServerMonitor
